import Mathlib

/-!
Verification of the book-voice-reader client (src/script.py).

We give a shallow embedding of the parts of the program the verified
properties concern:

* the tone transformation functions (`neutral`, `excited`, ..., `pirate`)
  and the tone-selection logic of `main` (lines 278-290);
* the file reader `read_from_file` (lines 211-222), modelled over an
  explicit filesystem outcome `Except ReadErr String` so that the
  exception-handling structure of the Python code is visible;
* the file-input branch of the interactive loop (lines 300-307);
* the receive loop and result handling of `generate_audio`
  (lines 133-166), modelled over an explicit list of incoming server
  messages.

PCM fragments are modelled as lists of integers (the decoded int16
samples); base64 decoding and `np.frombuffer` are abstracted into the
payload carried by a `Part.audio` constructor.  Python truthiness is
reflected where the code relies on it: an absent or empty `modelTurn`
both behave as no audio parts, so both are modelled by `Option`/empty
list; the `if responses:` guard tests list non-emptiness, and the
`if file_content:` guard treats the empty string like a failure.
-/

namespace BookVoiceReader

/-! ## Server messages and the receive loop of `generate_audio` -/

/-- One part of a model turn.  `audio d` models a part with
`inlineData.data` present, `d` being the decoded int16 samples;
`other` models a part lacking `inlineData` or its `data` field
(script.py line 145). -/
inductive Part where
  | audio (data : List Int)
  | other
deriving DecidableEq, Repr

/-- `modelTurn` payload: its list of parts (an absent or empty
`parts` field both contribute nothing, script.py lines 142-143). -/
structure ModelTurn where
  parts : List Part
deriving DecidableEq, Repr

/-- `serverContent` payload: an optional `modelTurn` (absent or empty
dict are both falsy in Python, script.py line 141) and the
`turnComplete` flag (absent means false, script.py line 149). -/
structure ServerContent where
  modelTurn : Option ModelTurn
  turnComplete : Bool
deriving DecidableEq, Repr

/-- One decoded server message: `serverContent` may be absent
(script.py lines 136-138). -/
structure ServerMessage where
  serverContent : Option ServerContent
deriving DecidableEq, Repr

/-- The audio fragments contributed by one `serverContent`:
the decoded data of every part carrying `inlineData.data`,
in part order (script.py lines 140-147). -/
def contentFragments (sc : ServerContent) : List (List Int) :=
  match sc.modelTurn with
  | none => []
  | some mt =>
      mt.parts.filterMap (fun p =>
        match p with
        | Part.audio d => some d
        | Part.other => none)

/-- The audio fragments a single message contributes to `responses`:
none when `serverContent` is absent (the loop breaks before reading
parts), otherwise the fragments of its content. -/
def msgFragments (m : ServerMessage) : List (List Int) :=
  match m.serverContent with
  | none => []
  | some sc => contentFragments sc

/-- A message on which the receive loop stops: either `serverContent`
is absent (script.py lines 137-138) or `turnComplete` is truthy
(script.py lines 149-151). -/
def isTerminal (m : ServerMessage) : Bool :=
  match m.serverContent with
  | none => true
  | some sc => sc.turnComplete

/-- The receive loop of `generate_audio` (script.py lines 133-151):
iterate over the incoming messages, appending each message's decoded
fragments to `responses`; stop before appending when `serverContent`
is absent, and stop after appending when `turnComplete` is set.
Returns the accumulated fragment list. -/
def processMessages : List ServerMessage → List (List Int)
  | [] => []
  | m :: rest =>
      match m.serverContent with
      | none => []
      | some sc =>
          if sc.turnComplete then contentFragments sc
          else contentFragments sc ++ processMessages rest

/-- Outcome of one turn in `generate_audio` (script.py lines 153-165):
either the Audio Sink is invoked with the concatenated sample buffer
(`played`), or the "No audio received" message is printed and the sink
is never touched (`noAudio`). -/
inductive TurnOutcome where
  | noAudio
  | played (samples : List Int)
deriving DecidableEq, Repr

/-- Result handling of `generate_audio` (script.py lines 153-165):
`if responses:` tests non-emptiness of the fragment list; on the truthy
branch the fragments are concatenated with `np.concatenate` and handed
to the wave file / playback, otherwise "No audio received" is printed. -/
def generate_audio (msgs : List ServerMessage) : TurnOutcome :=
  let responses := processMessages msgs
  if responses.isEmpty then TurnOutcome.noAudio
  else TurnOutcome.played responses.flatten

/-- Total number of PCM samples accumulated for a turn. -/
def totalSamples (msgs : List ServerMessage) : Nat :=
  ((processMessages msgs).map List.length).sum

/-! ## Tone transformation functions (script.py lines 169-209) -/

def neutral (text : String) : String :=
  "Say: \"" ++ text ++ "\""

def mysterious (text : String) : String :=
  "Say this like a dramatic wizard speaking very mysteriously: \"" ++ text ++ "\""

def excited (text : String) : String :=
  "Say this like a very enthusiastic excited fast-talking friend: \"" ++ text.toUpper ++ "!\""

def surprised (text : String) : String :=
  "Say with genuine shock and amazement: \"Oh wow! " ++ text ++ "!\""

def sad (text : String) : String :=
  "Say in a melancholic and dejected tone: \"*sigh* " ++ text ++ "...\""

def angry (text : String) : String :=
  "Say with intense anger and frustration: \"" ++ text.toUpper ++ "!!!\""

def uncertain (text : String) : String :=
  "Say this like a question, even if it's not a question, as if you are very uncertain and confused about what you're saying: \"Hmm... " ++ text ++ "?\""

def whispering (text : String) : String :=
  "Whisper in a hushed, secretive voice: \"" ++ text.toLower ++ "\""

def yelling (text : String) : String :=
  "Shout with maximum volume, with urgency like you are yelling at someone: \"" ++ text.toUpper ++ "!!!\""

/-- The whitespace characters Python `str.split()` splits on (ASCII
range). -/
def pyIsSpace (c : Char) : Bool :=
  c = ' ' || c = '\t' || c = '\n' || c = '\r' || c = '\x0b' || c = '\x0c'

/-- Split a character list at every whitespace character, keeping the
(possibly empty) chunks between them. -/
def splitChunks : List Char → List (List Char)
  | [] => [[]]
  | c :: cs =>
      let r := splitChunks cs
      if pyIsSpace c then [] :: r
      else
        match r with
        | [] => [[c]]
        | w :: ws => (c :: w) :: ws

/-- Python `str.split()` with no argument: split on runs of whitespace,
discarding empty words. -/
def pySplit (s : String) : List String :=
  ((splitChunks s.data).filter (fun w => w ≠ [])).map (fun w => String.mk w)

def slow (text : String) : String :=
  "Say very slowly and deliberately: \"" ++ String.intercalate "... " (pySplit text) ++ "...\""

def fast (text : String) : String :=
  "Say rapidly and energetically: \"" ++ String.intercalate "-" (pySplit text) ++ "\""

def surfer (text : String) : String :=
  "Say this like a mellow, laid-back surfer, speaking slowly and using surfer slang: \"Woah... " ++ text ++ ", like, totally radical!\""

def shakespeare (text : String) : String :=
  "Say this like a Shakespearean actor speaking a very dramatic monologue: \"" ++ text ++ "\""

/-- Python `text.replace('r', 'rrr')`: every occurrence of the
character `r` is replaced, left to right, by three `r`s. -/
def replaceR : List Char → List Char
  | [] => []
  | c :: cs =>
      if c = 'r' then 'r' :: 'r' :: 'r' :: replaceR cs
      else c :: replaceR cs

def pirate (text : String) : String :=
  "Say this like a pirate: \"Arrg, " ++ String.mk (replaceR text.data) ++ "... arrg\""

/-! ## Tone selection (script.py lines 229-244 and 278-290) -/

/-- The `tones` table of `main` (script.py lines 229-244), as the map
from tone identifier to transformation function. -/
def toneTransform : Int → Option (String → String)
  | 1 => some neutral
  | 2 => some mysterious
  | 3 => some excited
  | 4 => some surprised
  | 5 => some sad
  | 6 => some angry
  | 7 => some uncertain
  | 8 => some whispering
  | 9 => some yelling
  | 10 => some slow
  | 11 => some fast
  | 12 => some surfer
  | 13 => some shakespeare
  | 14 => some pirate
  | _ => none

/-- Tone selection (script.py lines 280-288): choice 0 selects the
`neutral` function ("skip"); a choice present in the table selects its
transform; anything else is invalid and the user is re-prompted
(modelled as `none`). -/
def selectTransform (tone_choice : Int) : Option (String → String) :=
  if tone_choice = 0 then some neutral
  else toneTransform tone_choice

/-! ## File reader (script.py lines 211-222) -/

/-- Failure outcome of the underlying `open`/`read` call: either the
file is missing (`FileNotFoundError`) or some other exception carrying
a message. -/
inductive ReadErr where
  | fileNotFound
  | other (msg : String)
deriving DecidableEq, Repr

/-- What `read_from_file` prints: nothing on success, the
"Error: File not found: ..." line on a missing file, the
"Error reading file: ..." line on any other exception
(script.py lines 218 and 221). -/
inductive Printed where
  | nothing
  | notFoundMsg (filename : String)
  | readErrorMsg (msg : String)
deriving DecidableEq, Repr

/-- `read_from_file` (script.py lines 211-222), as a total function of
the filesystem outcome: on success the full text is returned; on
`FileNotFoundError` a not-found diagnostic is printed and `None`
returned; on any other exception a generic diagnostic is printed and
`None` returned.  Totality of this function is the no-escaping-
exception property of the handlers. -/
def read_from_file (filename : String) (fs : Except ReadErr String) :
    Option String × Printed :=
  match fs with
  | Except.ok text => (some text, Printed.nothing)
  | Except.error ReadErr.fileNotFound => (none, Printed.notFoundMsg filename)
  | Except.error (ReadErr.other e) => (none, Printed.readErrorMsg e)

/-! ## File-input branch of the interactive loop (script.py lines 300-307) -/

/-- Result of one iteration of the inner mode loop in file mode:
either the formatted text is accepted as the turn, or an error is
printed and the user is re-prompted. -/
inductive FileModeResult where
  | accepted (formatted : String)
  | reprompt
deriving DecidableEq, Repr

/-- One file-mode iteration (script.py lines 300-307): read the file,
and `if file_content:` (Python truthiness: `None` and the empty string
are both falsy) apply the selected transform and submit; otherwise
print an error and re-prompt. -/
def file_mode_step (transform : String → String) (filename : String)
    (fs : Except ReadErr String) : FileModeResult :=
  match (read_from_file filename fs).1 with
  | some content =>
      if content = "" then FileModeResult.reprompt
      else FileModeResult.accepted (transform content)
  | none => FileModeResult.reprompt

/-! ## Helper lemmas -/

/-- Splitting the receive loop at the first terminal message: the
accumulated fragments are those of the non-terminal prefix, in order,
followed by the terminal message's own fragments; no later message
contributes. -/
theorem processMessages_split (pre : List ServerMessage) (t : ServerMessage)
    (rest : List ServerMessage)
    (hpre : ∀ m ∈ pre, isTerminal m = false) (ht : isTerminal t = true) :
    processMessages (pre ++ t :: rest) =
      (pre.map msgFragments).flatten ++ msgFragments t := by
  induction pre with
  | nil =>
      simp only [List.nil_append, List.map_nil, List.flatten, List.nil_append]
      match t with
      | ⟨none⟩ => simp [processMessages, msgFragments]
      | ⟨some sc⟩ =>
          simp only [isTerminal] at ht
          simp [processMessages, msgFragments, ht]
  | cons m pre ih =>
      have hm : isTerminal m = false := hpre m (List.mem_cons_self m pre)
      have hpre' : ∀ m' ∈ pre, isTerminal m' = false := by
        intro m' hm'
        exact hpre m' (List.mem_cons_of_mem m hm')
      match m with
      | ⟨none⟩ => simp [isTerminal] at hm
      | ⟨some sc⟩ =>
          simp only [isTerminal] at hm
          simp [processMessages, hm, msgFragments, ih hpre', List.flatten,
            List.append_assoc]

/-- `generate_audio` unfolds to a case split on fragment emptiness. -/
theorem generate_audio_eq (msgs : List ServerMessage) :
    generate_audio msgs =
      if (processMessages msgs).isEmpty then TurnOutcome.noAudio
      else TurnOutcome.played (processMessages msgs).flatten := rfl

/-- Replacing `r` by `rrr` triples the number of `r` characters. -/
theorem count_replaceR (cs : List Char) :
    (replaceR cs).count 'r' = 3 * cs.count 'r' := by
  induction cs with
  | nil => simp [replaceR]
  | cons c cs ih =>
      by_cases h : c = 'r'
      · subst h
        simp [replaceR, List.count_cons, ih]
        omega
      · simp [replaceR, h, List.count_cons, ih]

/-! ## Claims -/

/-- A turn whose single message carries one audio part that decodes to
zero samples and sets the completion flag. -/
def zeroSampleTurn : List ServerMessage :=
  [⟨some ⟨some ⟨[Part.audio []]⟩, true⟩⟩]

/-- C1 counterexample: a completed turn whose accumulated Audio
Response holds zero total PCM samples, yet the Audio Sink is invoked
(with an empty buffer) instead of the no-audio report: the guard
`if responses:` tests the fragment list, not the sample count. -/
theorem C1_empty_buffer_counterexample :
    totalSamples zeroSampleTurn = 0 ∧
    generate_audio zeroSampleTurn = TurnOutcome.played [] :=
  ⟨rfl, rfl⟩

/-- C1 (amended): the no-audio report happens exactly when the list of
received fragments is empty; whenever at least one fragment was
received the Audio Sink is invoked, even if the fragments carry zero
total samples. -/
theorem C1_sink_guard_is_fragment_emptiness (msgs : List ServerMessage) :
    generate_audio msgs = TurnOutcome.noAudio ↔ processMessages msgs = [] := by
  constructor
  · intro h
    by_cases he : (processMessages msgs).isEmpty
    · exact List.isEmpty_iff.mp he
    · simp [generate_audio, he] at h
  · intro h
    simp [generate_audio, h]

/-- C2 counterexample: the outcome `read_from_file` returns to its
caller on a missing file equals the outcome it returns on any other
I/O failure — both are `none`; they are not distinct. -/
theorem C2_outcomes_not_distinct_counterexample :
    (read_from_file "book.txt" (Except.error ReadErr.fileNotFound)).1 =
      (read_from_file "book.txt" (Except.error (ReadErr.other "disk full"))).1 ∧
    (read_from_file "book.txt" (Except.error ReadErr.fileNotFound)).1 = none :=
  ⟨rfl, rfl⟩

/-- C2 (amended): `read_from_file` returns the full content on
success; on a missing file and on any other I/O failure it returns the
same `none` outcome, distinct from every content value; the two
failure kinds are told apart only by the printed diagnostic.  No
exception escapes: the handler is total over every filesystem
outcome. -/
theorem C2_read_from_file_outcomes (fn e : String) (fs : Except ReadErr String) :
    (∀ t : String, fs = Except.ok t →
      read_from_file fn fs = (some t, Printed.nothing)) ∧
    (∀ err : ReadErr, fs = Except.error err → (read_from_file fn fs).1 = none) ∧
    (read_from_file fn (Except.error ReadErr.fileNotFound)).2 ≠
      (read_from_file fn (Except.error (ReadErr.other e))).2 := by
  refine ⟨?_, ?_, ?_⟩
  · intro t ht
    subst ht
    rfl
  · intro err herr
    subst herr
    cases err <;> rfl
  · simp [read_from_file]

/-- Witness for C2 (amended) at a concrete successful read. -/
theorem C2_read_from_file_outcomes_witness :
    read_from_file "book.txt" (Except.ok "hello") =
      (some "hello", Printed.nothing) :=
  (C2_read_from_file_outcomes "book.txt" "disk full" (Except.ok "hello")).1
    "hello" rfl

/-- C3: the receive loop stops exactly at the first terminal message
(one lacking server content, or one with a true completion flag); the
accumulated result is the in-order fragment contribution of the
preceding messages plus the terminal message's own contribution
(empty when server content is absent), and messages after the
terminal one never affect the result. -/
theorem C3_receive_loop_stops_at_first_terminal
    (pre : List ServerMessage) (t : ServerMessage) (rest : List ServerMessage)
    (hpre : ∀ m ∈ pre, isTerminal m = false) (ht : isTerminal t = true) :
    processMessages (pre ++ t :: rest) =
      (pre.map msgFragments).flatten ++ msgFragments t ∧
    processMessages (pre ++ t :: rest) = processMessages (pre ++ [t]) := by
  have h1 := processMessages_split pre t rest hpre ht
  have h2 := processMessages_split pre t [] hpre ht
  exact ⟨h1, h1.trans h2.symm⟩

/-- Witness for C3 at a concrete stream: one audio message, then a
completion message, then a trailing message that must be ignored. -/
theorem C3_receive_loop_witness :
    processMessages
      [⟨some ⟨some ⟨[Part.audio [1, 2]]⟩, false⟩⟩,
       ⟨some ⟨none, true⟩⟩,
       ⟨some ⟨some ⟨[Part.audio [9]]⟩, false⟩⟩] = [[1, 2]] := by
  have h := C3_receive_loop_stops_at_first_terminal
    [⟨some ⟨some ⟨[Part.audio [1, 2]]⟩, false⟩⟩]
    ⟨some ⟨none, true⟩⟩
    [⟨some ⟨some ⟨[Part.audio [9]]⟩, false⟩⟩]
    (by decide) rfl
  simpa [msgFragments, contentFragments] using h.1

/-- C4: a turn in which zero audio fragments were received never
invokes the Audio Sink: `generate_audio` takes the no-audio branch. -/
theorem C4_zero_fragments_no_sink (msgs : List ServerMessage)
    (h : processMessages msgs = []) :
    generate_audio msgs = TurnOutcome.noAudio := by
  simp [generate_audio, h]

/-- Witness for C4: a stream whose first message lacks server
content yields no fragments and the no-audio report. -/
theorem C4_zero_fragments_no_sink_witness :
    processMessages [(⟨none⟩ : ServerMessage)] = [] ∧
    generate_audio [(⟨none⟩ : ServerMessage)] = TurnOutcome.noAudio :=
  ⟨rfl, C4_zero_fragments_no_sink [⟨none⟩] rfl⟩

/-- A turn delivering two fragments in one completed message. -/
def twoFragmentTurn : List ServerMessage :=
  [⟨some ⟨some ⟨[Part.audio [1, 2], Part.audio [3]]⟩, true⟩⟩]

/-- C5: when at least one fragment was received, the Audio Sink gets
the in-order concatenation of the fragments, and its length is the sum
of the individual fragment lengths. -/
theorem C5_concatenation_in_arrival_order (msgs : List ServerMessage)
    (h : processMessages msgs ≠ []) :
    generate_audio msgs = TurnOutcome.played (processMessages msgs).flatten ∧
    (processMessages msgs).flatten.length = totalSamples msgs := by
  constructor
  · simp [generate_audio, h]
  · simpa [totalSamples] using List.length_flatten (processMessages msgs)

/-- Witness for C5 at a concrete two-fragment turn. -/
theorem C5_concatenation_witness :
    generate_audio twoFragmentTurn =
      TurnOutcome.played (processMessages twoFragmentTurn).flatten ∧
    (processMessages twoFragmentTurn).flatten.length =
      totalSamples twoFragmentTurn :=
  C5_concatenation_in_arrival_order twoFragmentTurn (by decide)

/-- C6: the skip selection (choice 0) and the explicit Neutral tone
(choice 1) select the same transformation, hence produce identical
formatted output on every input text. -/
theorem C6_skip_equals_neutral (text : String) :
    selectTransform 0 = some neutral ∧
    selectTransform 1 = some neutral ∧
    Option.map (fun f => f text) (selectTransform 0) =
      Option.map (fun f => f text) (selectTransform 1) :=
  ⟨rfl, rfl, rfl⟩

/-- C7: the pirate transformation expands every lowercase `r` of the
input to `rrr` (tripling the `r`-count) before framing; on the input
"pirate", whose single `r` undergoes exactly one substitution, the
output contains "pirrrate". -/
theorem C7_pirate_expands_r :
    (∀ cs : List Char, (replaceR cs).count 'r' = 3 * cs.count 'r') ∧
    "pirate".data.count 'r' = 1 ∧
    pirate "pirate" = "Say this like a pirate: \"Arrg, pirrrate... arrg\"" :=
  ⟨count_replaceR, by decide, rfl⟩

/-- C8: the slow transformation joins the whitespace-split words with
"... " and appends a trailing ellipsis: on "a b c" the framed text is
"a... b... c...". -/
theorem C8_slow_ellipses :
    slow "a b c" = "Say very slowly and deliberately: \"a... b... c...\"" :=
  rfl

/-- C9 counterexample: a successful read of an empty file is treated
as a failure: `read_from_file` succeeds with content `""`, yet the
file-mode branch re-prompts (the `if file_content:` truthiness test
conflates empty content with the failure outcome). -/
theorem C9_empty_file_counterexample :
    (read_from_file "empty.txt" (Except.ok "")).1 = some "" ∧
    file_mode_step neutral "empty.txt" (Except.ok "") =
      FileModeResult.reprompt :=
  ⟨rfl, rfl⟩

/-- C9 (amended): in file mode the loop re-prompts exactly when the
File Reader reports a failure or the read content is empty; every
successful read of nonempty content is accepted with the chosen tone
transformation applied and submitted as the turn. -/
theorem C9_file_mode_behaviour (f : String → String) (fn : String) :
    (∀ err : ReadErr,
      file_mode_step f fn (Except.error err) = FileModeResult.reprompt) ∧
    file_mode_step f fn (Except.ok "") = FileModeResult.reprompt ∧
    (∀ c : String, c ≠ "" →
      file_mode_step f fn (Except.ok c) = FileModeResult.accepted (f c)) := by
  refine ⟨?_, rfl, ?_⟩
  · intro err
    cases err <;> rfl
  · intro c hc
    simp [file_mode_step, read_from_file, hc]

/-- Witness for C9 (amended) at a concrete nonempty read. -/
theorem C9_file_mode_behaviour_witness :
    file_mode_step neutral "book.txt" (Except.ok "hello") =
      FileModeResult.accepted (neutral "hello") :=
  (C9_file_mode_behaviour neutral "book.txt").2.2 "hello" (by decide)

/-- C10: a final server message that carries both an audio payload and
a true completion flag has its fragments appended to the Audio
Response before the loop stops, so audio in the completion-flagged
message is part of the accumulated result. -/
theorem C10_final_message_audio_included
    (pre rest : List ServerMessage) (sc : ServerContent)
    (hpre : ∀ m ∈ pre, isTerminal m = false) (hc : sc.turnComplete = true) :
    processMessages (pre ++ (⟨some sc⟩ : ServerMessage) :: rest) =
      (pre.map msgFragments).flatten ++ contentFragments sc := by
  have ht : isTerminal ⟨some sc⟩ = true := by
    simp [isTerminal, hc]
  exact processMessages_split pre ⟨some sc⟩ rest hpre ht

/-- Witness for C10: a single completion-flagged message carrying one
fragment contributes that fragment. -/
theorem C10_final_message_witness :
    processMessages [(⟨some ⟨some ⟨[Part.audio [7, 8]]⟩, true⟩⟩ : ServerMessage)] =
      [[7, 8]] := by
  have h := C10_final_message_audio_included [] []
    ⟨some ⟨[Part.audio [7, 8]]⟩, true⟩ (by simp) rfl
  simpa [contentFragments] using h

end BookVoiceReader
